import Mathlib

/-!
Shallow embedding of `custom_components/ha_blueair/blueair_aws_data_update_coordinator.py`
(repository `rainwoodman/ha_blueair`).

The file defines a single class, `BlueairAwsDataUpdateCoordinator`, a
pass-through adapter over an external `blueair_api.DeviceAws` client, wired
into the Home Assistant polling framework.  The external device client, the
`ModelEnum` of the `blueair_api` package, and the host framework objects
(`HomeAssistant`, `Debouncer`, `timedelta`) are modelled as plain records;
the two module constants imported from `.const` (`DOMAIN` and
`FILTER_EXPIRED_THRESHOLD`), whose defining file is not part of the sources
verified here, are carried as explicit parameters.

Python semantics used by the translation:
* a property getter containing only `return e` becomes a function
  `self ↦ (⟦e⟧ self, self)` — the returned value paired with the (unchanged)
  object state;
* the sentinel `NotImplemented`, the value `None` and a genuine reading are
  the three constructors of `Avail`;
* an `async` method whose body is a sequence of awaited external calls
  becomes a function returning the ordered list of calls it issues (the call
  trace) paired with the object state;
* `_async_update_data`, whose only effectful repository-level step is the
  `try/except` around the external `refresh()`, takes the outcome of that
  external call as an argument (`Except PyError DeviceAws`: the exception
  raised, or the refreshed device state) and returns the Python result
  (`Except UpdateFailed dict`) paired with the updated coordinator state.
-/

namespace HaBlueair

/-- Model enum of the external `blueair_api` package.  The members named by
the code are present together with further members standing for the rest of
the enum ("every other model"). -/
inductive ModelEnum where
  | HUMIDIFIER_H35I
  | MAX_211I
  | MAX_311I
  | PROTECT_7440I
  | PROTECT_7470I
  | T10I
  | UNKNOWN
  | CLASSIC_680I
  deriving DecidableEq, Repr

/-- The `model_name` attribute of a `ModelEnum` member (external library
data; the concrete strings do not matter to any claim, only that the
coordinator forwards them unchanged). -/
def ModelEnum.model_name : ModelEnum → String
  | .HUMIDIFIER_H35I => "H35i"
  | .MAX_211I => "Max 211i"
  | .MAX_311I => "Max 311i"
  | .PROTECT_7440I => "Protect 7440i"
  | .PROTECT_7470I => "Protect 7470i"
  | .T10I => "T10i"
  | .UNKNOWN => "Unknown"
  | .CLASSIC_680I => "Classic 680i"

/-- A Python attribute that may hold the sentinel `NotImplemented`, the
value `None`, or an actual reading. -/
inductive Avail (α : Type) where
  | notImplemented
  | pyNone
  | avail (a : α)
  deriving DecidableEq, Repr

/-- Host framework handle; opaque to the repository code. -/
structure HomeAssistant where
  tag : Nat
  deriving DecidableEq

/-- State of the external `blueair_api.DeviceAws` client wrapped by the
coordinator, with the attributes the repository code reads. -/
structure DeviceAws where
  uuid : String
  name : String
  model : ModelEnum
  fan_speed : Int
  running : Bool
  brightness : Int
  child_lock : Bool
  night_mode : Bool
  temperature : Int
  humidity : Int
  tVOC : Int
  pm1 : Int
  pm10 : Int
  pm2_5 : Int
  wifi_working : Bool
  fan_auto_mode : Bool
  wick_dry_mode : Bool
  water_shortage : Bool
  filter_usage_percentage : Avail Int
  wick_usage_percentage : Avail Int
  deriving DecidableEq

/-- `datetime.timedelta`, reduced to its total number of seconds. -/
structure Timedelta where
  seconds : Nat
  deriving DecidableEq

/-- `timedelta(minutes=m)`. -/
def timedelta_minutes (minutes : Nat) : Timedelta :=
  ⟨minutes * 60⟩

/-- Configuration of the host-provided `Debouncer` as passed by the
constructor (the debouncer itself is host code, only configured here). -/
structure Debouncer where
  cooldown : ℚ
  immediate : Bool
  deriving DecidableEq

/-- A Python exception raised by the external library. -/
abbrev PyError := String

/-- The `UpdateFailed` exception of the host framework, wrapping the
original error. -/
structure UpdateFailed where
  error : PyError
  deriving DecidableEq

/-- External calls a coordinator command method can issue, in order. -/
inductive Event where
  | device_set_fan_speed (new_speed : Int)
  | device_set_running (running : Bool)
  | device_set_brightness (brightness : Int)
  | device_set_child_lock (locked : Bool)
  | device_set_night_mode (mode : Bool)
  | device_set_fan_auto_mode (value : Bool)
  | device_set_wick_dry_mode (value : Bool)
  | async_request_refresh
  deriving DecidableEq, Repr

/-- State of a `BlueairAwsDataUpdateCoordinator` object: the attributes set
by `__init__`, including those handed to the host base-class constructor
(`name`, `update_interval`, `request_refresh_debouncer`). -/
structure BlueairAwsDataUpdateCoordinator where
  hass : HomeAssistant
  blueair_api_device : DeviceAws
  _manufacturer : String
  name : String
  update_interval : Timedelta
  request_refresh_debouncer : Debouncer
  deriving DecidableEq

namespace BlueairAwsDataUpdateCoordinator

/-- `__init__`: stores the host handle and device client, sets
`_manufacturer`, and configures the base class with the name
`f"{DOMAIN}-{uuid}"`, a 5-minute update interval and a debouncer with
`cooldown=5.0, immediate=False`.  `DOMAIN` comes from `.const`. -/
def init (DOMAIN : String) (hass : HomeAssistant)
    (blueair_api_device : DeviceAws) : BlueairAwsDataUpdateCoordinator :=
  { hass := hass
    blueair_api_device := blueair_api_device
    _manufacturer := "BlueAir"
    name := DOMAIN ++ "-" ++ blueair_api_device.uuid
    update_interval := timedelta_minutes 5
    request_refresh_debouncer := { cooldown := 5, immediate := false } }

/-- `_async_update_data`: awaits the external `refresh()` (whose outcome —
the exception raised, or the refreshed device state — is the argument);
on success it re-derives `self.name` from the refreshed device name and
returns `{}`; on failure it raises `UpdateFailed(error)` and leaves the
object untouched. -/
def _async_update_data (DOMAIN : String)
    (self : BlueairAwsDataUpdateCoordinator)
    (refresh_outcome : Except PyError DeviceAws) :
    Except UpdateFailed (List (String × String)) ×
      BlueairAwsDataUpdateCoordinator :=
  match refresh_outcome with
  | .ok refreshed =>
      let self := { self with blueair_api_device := refreshed }
      let self := { self with
        name := DOMAIN ++ "-" ++ self.blueair_api_device.name }
      (.ok [], self)
  | .error e => (.error ⟨e⟩, self)

/-- Property `id`. -/
def id (self : BlueairAwsDataUpdateCoordinator) :
    String × BlueairAwsDataUpdateCoordinator :=
  (self.blueair_api_device.uuid, self)

/-- Property `device_name`. -/
def device_name (self : BlueairAwsDataUpdateCoordinator) :
    String × BlueairAwsDataUpdateCoordinator :=
  (self.blueair_api_device.name, self)

/-- Property `manufacturer`. -/
def manufacturer (self : BlueairAwsDataUpdateCoordinator) :
    String × BlueairAwsDataUpdateCoordinator :=
  (self._manufacturer, self)

/-- Property `model`. -/
def model (self : BlueairAwsDataUpdateCoordinator) :
    String × BlueairAwsDataUpdateCoordinator :=
  (self.blueair_api_device.model.model_name, self)

/-- Property `fan_speed`. -/
def fan_speed (self : BlueairAwsDataUpdateCoordinator) :
    Int × BlueairAwsDataUpdateCoordinator :=
  (self.blueair_api_device.fan_speed, self)

/-- Property `speed_count`: the model-conditional maximum fan speed. -/
def speed_count (self : BlueairAwsDataUpdateCoordinator) :
    Int × BlueairAwsDataUpdateCoordinator :=
  if self.blueair_api_device.model = ModelEnum.HUMIDIFIER_H35I then
    (64, self)
  else if self.blueair_api_device.model ∈ [
      ModelEnum.MAX_211I,
      ModelEnum.MAX_311I,
      ModelEnum.PROTECT_7440I,
      ModelEnum.PROTECT_7470I] then
    (91, self)
  else if self.blueair_api_device.model = ModelEnum.T10I then
    (4, self)
  else
    (100, self)

/-- Property `is_on`. -/
def is_on (self : BlueairAwsDataUpdateCoordinator) :
    Bool × BlueairAwsDataUpdateCoordinator :=
  (self.blueair_api_device.running, self)

/-- Property `brightness`. -/
def brightness (self : BlueairAwsDataUpdateCoordinator) :
    Int × BlueairAwsDataUpdateCoordinator :=
  (self.blueair_api_device.brightness, self)

/-- Property `child_lock`. -/
def child_lock (self : BlueairAwsDataUpdateCoordinator) :
    Bool × BlueairAwsDataUpdateCoordinator :=
  (self.blueair_api_device.child_lock, self)

/-- Property `night_mode`. -/
def night_mode (self : BlueairAwsDataUpdateCoordinator) :
    Bool × BlueairAwsDataUpdateCoordinator :=
  (self.blueair_api_device.night_mode, self)

/-- Property `temperature`. -/
def temperature (self : BlueairAwsDataUpdateCoordinator) :
    Int × BlueairAwsDataUpdateCoordinator :=
  (self.blueair_api_device.temperature, self)

/-- Property `humidity`. -/
def humidity (self : BlueairAwsDataUpdateCoordinator) :
    Int × BlueairAwsDataUpdateCoordinator :=
  (self.blueair_api_device.humidity, self)

/-- Property `voc`. -/
def voc (self : BlueairAwsDataUpdateCoordinator) :
    Int × BlueairAwsDataUpdateCoordinator :=
  (self.blueair_api_device.tVOC, self)

/-- Property `pm1`. -/
def pm1 (self : BlueairAwsDataUpdateCoordinator) :
    Int × BlueairAwsDataUpdateCoordinator :=
  (self.blueair_api_device.pm1, self)

/-- Property `pm10`. -/
def pm10 (self : BlueairAwsDataUpdateCoordinator) :
    Int × BlueairAwsDataUpdateCoordinator :=
  (self.blueair_api_device.pm10, self)

/-- Property `pm25` (maps to the device attribute `pm2_5`). -/
def pm25 (self : BlueairAwsDataUpdateCoordinator) :
    Int × BlueairAwsDataUpdateCoordinator :=
  (self.blueair_api_device.pm2_5, self)

/-- Property `co2`: `return NotImplemented`. -/
def co2 (self : BlueairAwsDataUpdateCoordinator) :
    Avail Int × BlueairAwsDataUpdateCoordinator :=
  (Avail.notImplemented, self)

/-- Property `online`. -/
def online (self : BlueairAwsDataUpdateCoordinator) :
    Bool × BlueairAwsDataUpdateCoordinator :=
  (self.blueair_api_device.wifi_working, self)

/-- Property `fan_auto_mode`. -/
def fan_auto_mode (self : BlueairAwsDataUpdateCoordinator) :
    Bool × BlueairAwsDataUpdateCoordinator :=
  (self.blueair_api_device.fan_auto_mode, self)

/-- Property `wick_dry_mode`. -/
def wick_dry_mode (self : BlueairAwsDataUpdateCoordinator) :
    Bool × BlueairAwsDataUpdateCoordinator :=
  (self.blueair_api_device.wick_dry_mode, self)

/-- Property `water_shortage`. -/
def water_shortage (self : BlueairAwsDataUpdateCoordinator) :
    Bool × BlueairAwsDataUpdateCoordinator :=
  (self.blueair_api_device.water_shortage, self)

/-- Property `filter_expired`.  Python falls off the end of the function
(implicitly returning `None`) when both usage percentages are unavailable,
so the result is an `Option Bool`.  `FILTER_EXPIRED_THRESHOLD` comes from
`.const`. -/
def filter_expired (FILTER_EXPIRED_THRESHOLD : Int)
    (self : BlueairAwsDataUpdateCoordinator) :
    Option Bool × BlueairAwsDataUpdateCoordinator :=
  match self.blueair_api_device.filter_usage_percentage with
  | .avail p => (some (decide (p ≥ FILTER_EXPIRED_THRESHOLD)), self)
  | _ =>
    match self.blueair_api_device.wick_usage_percentage with
    | .avail p => (some (decide (p ≥ FILTER_EXPIRED_THRESHOLD)), self)
    | _ => (none, self)

/-- `set_fan_speed`: forwards to the device client, then requests a
refresh. -/
def set_fan_speed (self : BlueairAwsDataUpdateCoordinator)
    (new_speed : Int) : List Event × BlueairAwsDataUpdateCoordinator :=
  ([Event.device_set_fan_speed new_speed, Event.async_request_refresh], self)

/-- `set_running`: forwards to the device client, then requests a
refresh. -/
def set_running (self : BlueairAwsDataUpdateCoordinator)
    (running : Bool) : List Event × BlueairAwsDataUpdateCoordinator :=
  ([Event.device_set_running running, Event.async_request_refresh], self)

/-- `set_brightness`: forwards to the device client, then requests a
refresh. -/
def set_brightness (self : BlueairAwsDataUpdateCoordinator)
    (b : Int) : List Event × BlueairAwsDataUpdateCoordinator :=
  ([Event.device_set_brightness b, Event.async_request_refresh], self)

/-- `set_child_lock`: forwards to the device client, then requests a
refresh. -/
def set_child_lock (self : BlueairAwsDataUpdateCoordinator)
    (locked : Bool) : List Event × BlueairAwsDataUpdateCoordinator :=
  ([Event.device_set_child_lock locked, Event.async_request_refresh], self)

/-- `set_night_mode`: forwards to the device client, then requests a
refresh. -/
def set_night_mode (self : BlueairAwsDataUpdateCoordinator)
    (mode : Bool) : List Event × BlueairAwsDataUpdateCoordinator :=
  ([Event.device_set_night_mode mode, Event.async_request_refresh], self)

/-- `set_fan_auto_mode`: forwards to the device client, then requests a
refresh. -/
def set_fan_auto_mode (self : BlueairAwsDataUpdateCoordinator)
    (value : Bool) : List Event × BlueairAwsDataUpdateCoordinator :=
  ([Event.device_set_fan_auto_mode value, Event.async_request_refresh], self)

/-- `set_wick_dry_mode`: forwards to the device client, then requests a
refresh. -/
def set_wick_dry_mode (self : BlueairAwsDataUpdateCoordinator)
    (value : Bool) : List Event × BlueairAwsDataUpdateCoordinator :=
  ([Event.device_set_wick_dry_mode value, Event.async_request_refresh], self)

end BlueairAwsDataUpdateCoordinator

/-- Sample host handle used to instantiate theorems on concrete inputs. -/
def hass0 : HomeAssistant := ⟨0⟩

/-- Sample device state: an H35i humidifier with an expired filter reading
and no wick reading. -/
def devH35 : DeviceAws :=
  { uuid := "u-h35", name := "bedroom", model := .HUMIDIFIER_H35I
    fan_speed := 32, running := true, brightness := 10
    child_lock := false, night_mode := false
    temperature := 21, humidity := 40, tVOC := 120
    pm1 := 1, pm10 := 3, pm2_5 := 2
    wifi_working := true, fan_auto_mode := false
    wick_dry_mode := false, water_shortage := false
    filter_usage_percentage := .avail 96
    wick_usage_percentage := .pyNone }

/-- Sample device state: a Max 211i purifier. -/
def devMax : DeviceAws :=
  { devH35 with uuid := "u-max", model := .MAX_211I }

/-- Sample device state: a T10i with no filter reading and a fresh wick
reading. -/
def devT10 : DeviceAws :=
  { devH35 with
    uuid := "u-t10"
    model := .T10I
    filter_usage_percentage := .notImplemented
    wick_usage_percentage := .avail 10 }

/-- Sample device state: a model outside the special-cased list, with both
usage percentages unavailable. -/
def devOther : DeviceAws :=
  { devH35 with
    uuid := "u-cls"
    model := .CLASSIC_680I
    filter_usage_percentage := .pyNone
    wick_usage_percentage := .notImplemented }

open BlueairAwsDataUpdateCoordinator in
/-- Claim C1: `speed_count` returns 64 for `HUMIDIFIER_H35I`, 91 for
`MAX_211I`, `MAX_311I`, `PROTECT_7440I` and `PROTECT_7470I`, 4 for `T10I`,
and 100 for every other model. -/
theorem speed_count_model_cases (c : BlueairAwsDataUpdateCoordinator) :
    (c.blueair_api_device.model = ModelEnum.HUMIDIFIER_H35I →
      (c.speed_count).1 = 64) ∧
    (c.blueair_api_device.model ∈ [ModelEnum.MAX_211I, ModelEnum.MAX_311I,
        ModelEnum.PROTECT_7440I, ModelEnum.PROTECT_7470I] →
      (c.speed_count).1 = 91) ∧
    (c.blueair_api_device.model = ModelEnum.T10I →
      (c.speed_count).1 = 4) ∧
    (c.blueair_api_device.model ∉ [ModelEnum.HUMIDIFIER_H35I,
        ModelEnum.MAX_211I, ModelEnum.MAX_311I, ModelEnum.PROTECT_7440I,
        ModelEnum.PROTECT_7470I, ModelEnum.T10I] →
      (c.speed_count).1 = 100) := by
  rcases hm : c.blueair_api_device.model <;>
    simp [BlueairAwsDataUpdateCoordinator.speed_count, hm]

open BlueairAwsDataUpdateCoordinator in
/-- Witness for C1: the four branches evaluated on concrete coordinators of
each kind. -/
theorem speed_count_model_cases_witness :
    (((init "ha_blueair" hass0 devH35).speed_count).1 = 64) ∧
    (((init "ha_blueair" hass0 devMax).speed_count).1 = 91) ∧
    (((init "ha_blueair" hass0 devT10).speed_count).1 = 4) ∧
    (((init "ha_blueair" hass0 devOther).speed_count).1 = 100) :=
  ⟨(speed_count_model_cases (init "ha_blueair" hass0 devH35)).1 (by decide),
   (speed_count_model_cases (init "ha_blueair" hass0 devMax)).2.1 (by decide),
   (speed_count_model_cases (init "ha_blueair" hass0 devT10)).2.2.1
     (by decide),
   (speed_count_model_cases (init "ha_blueair" hass0 devOther)).2.2.2
     (by decide)⟩

open BlueairAwsDataUpdateCoordinator Event in
/-- Claim C2: every command method issues exactly two external calls, in
order: the device client's method of the same name with the argument
unchanged, then the coordinator refresh request; the object state is
untouched. -/
theorem set_commands_forward_then_refresh
    (c : BlueairAwsDataUpdateCoordinator) (new_speed b : Int)
    (running locked mode va vw : Bool) :
    c.set_fan_speed new_speed =
      ([device_set_fan_speed new_speed, async_request_refresh], c) ∧
    c.set_running running =
      ([device_set_running running, async_request_refresh], c) ∧
    c.set_brightness b =
      ([device_set_brightness b, async_request_refresh], c) ∧
    c.set_child_lock locked =
      ([device_set_child_lock locked, async_request_refresh], c) ∧
    c.set_night_mode mode =
      ([device_set_night_mode mode, async_request_refresh], c) ∧
    c.set_fan_auto_mode va =
      ([device_set_fan_auto_mode va, async_request_refresh], c) ∧
    c.set_wick_dry_mode vw =
      ([device_set_wick_dry_mode vw, async_request_refresh], c) :=
  ⟨rfl, rfl, rfl, rfl, rfl, rfl, rfl⟩

/-- Claim C3: each forwarding property returns exactly the corresponding
attribute of the wrapped device client. -/
theorem forwarding_properties_values (c : BlueairAwsDataUpdateCoordinator) :
    (c.id).1 = c.blueair_api_device.uuid ∧
    (c.device_name).1 = c.blueair_api_device.name ∧
    (c.model).1 = c.blueair_api_device.model.model_name ∧
    (c.fan_speed).1 = c.blueair_api_device.fan_speed ∧
    (c.is_on).1 = c.blueair_api_device.running ∧
    (c.brightness).1 = c.blueair_api_device.brightness ∧
    (c.child_lock).1 = c.blueair_api_device.child_lock ∧
    (c.night_mode).1 = c.blueair_api_device.night_mode ∧
    (c.temperature).1 = c.blueair_api_device.temperature ∧
    (c.humidity).1 = c.blueair_api_device.humidity ∧
    (c.voc).1 = c.blueair_api_device.tVOC ∧
    (c.pm1).1 = c.blueair_api_device.pm1 ∧
    (c.pm10).1 = c.blueair_api_device.pm10 ∧
    (c.pm25).1 = c.blueair_api_device.pm2_5 ∧
    (c.online).1 = c.blueair_api_device.wifi_working ∧
    (c.fan_auto_mode).1 = c.blueair_api_device.fan_auto_mode ∧
    (c.wick_dry_mode).1 = c.blueair_api_device.wick_dry_mode ∧
    (c.water_shortage).1 = c.blueair_api_device.water_shortage :=
  ⟨rfl, rfl, rfl, rfl, rfl, rfl, rfl, rfl, rfl, rfl, rfl, rfl, rfl, rfl,
   rfl, rfl, rfl, rfl⟩

/-- Claim C4: every property getter leaves the coordinator state — and with
it the wrapped device client state — unchanged. -/
theorem properties_read_only (FILTER_EXPIRED_THRESHOLD : Int)
    (c : BlueairAwsDataUpdateCoordinator) :
    (c.id).2 = c ∧ (c.device_name).2 = c ∧ (c.manufacturer).2 = c ∧
    (c.model).2 = c ∧ (c.fan_speed).2 = c ∧ (c.speed_count).2 = c ∧
    (c.is_on).2 = c ∧ (c.brightness).2 = c ∧ (c.child_lock).2 = c ∧
    (c.night_mode).2 = c ∧ (c.temperature).2 = c ∧ (c.humidity).2 = c ∧
    (c.voc).2 = c ∧ (c.pm1).2 = c ∧ (c.pm10).2 = c ∧ (c.pm25).2 = c ∧
    (c.co2).2 = c ∧ (c.online).2 = c ∧ (c.fan_auto_mode).2 = c ∧
    (c.wick_dry_mode).2 = c ∧ (c.water_shortage).2 = c ∧
    (c.filter_expired FILTER_EXPIRED_THRESHOLD).2 = c := by
  refine ⟨rfl, rfl, rfl, rfl, rfl, ?_, rfl, rfl, rfl, rfl, rfl, rfl, rfl,
    rfl, rfl, rfl, rfl, rfl, rfl, rfl, rfl, ?_⟩
  · unfold BlueairAwsDataUpdateCoordinator.speed_count
    split <;> [rfl; split <;> [rfl; split <;> rfl]]
  · unfold BlueairAwsDataUpdateCoordinator.filter_expired
    rcases c.blueair_api_device.filter_usage_percentage <;>
      [skip; skip; rfl] <;>
      rcases c.blueair_api_device.wick_usage_percentage <;> rfl

open BlueairAwsDataUpdateCoordinator in
/-- Claim C5: the constructor configures the host polling scheduler with a
5-minute update interval and a debouncer with cooldown 5.0 and
`immediate=False`, and names the coordinator `DOMAIN` + "-" + uuid. -/
theorem init_configuration (DOMAIN : String) (hass : HomeAssistant)
    (dev : DeviceAws) :
    (init DOMAIN hass dev).update_interval = timedelta_minutes 5 ∧
    (init DOMAIN hass dev).update_interval.seconds = 300 ∧
    (init DOMAIN hass dev).request_refresh_debouncer.cooldown = 5 ∧
    (init DOMAIN hass dev).request_refresh_debouncer.immediate = false ∧
    (init DOMAIN hass dev).name = DOMAIN ++ "-" ++ dev.uuid ∧
    (init DOMAIN hass dev).blueair_api_device = dev ∧
    (init DOMAIN hass dev).hass = hass :=
  ⟨rfl, rfl, rfl, rfl, rfl, rfl, rfl⟩

/-- Claim C6: `filter_expired` compares `filter_usage_percentage` against
the threshold when that attribute is available, otherwise compares
`wick_usage_percentage` when that is available, and otherwise returns
Python `None` (modelled `none`) instead of a boolean. -/
theorem filter_expired_cases (FILTER_EXPIRED_THRESHOLD : Int)
    (c : BlueairAwsDataUpdateCoordinator) :
    (∀ p, c.blueair_api_device.filter_usage_percentage = Avail.avail p →
      (c.filter_expired FILTER_EXPIRED_THRESHOLD).1 =
        some (decide (p ≥ FILTER_EXPIRED_THRESHOLD))) ∧
    ((c.blueair_api_device.filter_usage_percentage = Avail.notImplemented ∨
      c.blueair_api_device.filter_usage_percentage = Avail.pyNone) →
     ∀ p, c.blueair_api_device.wick_usage_percentage = Avail.avail p →
      (c.filter_expired FILTER_EXPIRED_THRESHOLD).1 =
        some (decide (p ≥ FILTER_EXPIRED_THRESHOLD))) ∧
    ((c.blueair_api_device.filter_usage_percentage = Avail.notImplemented ∨
      c.blueair_api_device.filter_usage_percentage = Avail.pyNone) →
     (c.blueair_api_device.wick_usage_percentage = Avail.notImplemented ∨
      c.blueair_api_device.wick_usage_percentage = Avail.pyNone) →
      (c.filter_expired FILTER_EXPIRED_THRESHOLD).1 = none) := by
  rcases hf : c.blueair_api_device.filter_usage_percentage <;>
    rcases hw : c.blueair_api_device.wick_usage_percentage <;>
    simp [BlueairAwsDataUpdateCoordinator.filter_expired, hf, hw]

open BlueairAwsDataUpdateCoordinator in
/-- Witness for C6: the three branches evaluated on concrete coordinators
at threshold 95. -/
theorem filter_expired_cases_witness :
    ((init "d" hass0 devH35).blueair_api_device.filter_usage_percentage =
      Avail.avail 96 ∧
     ((init "d" hass0 devH35).filter_expired 95).1 = some true) ∧
    ((init "d" hass0 devT10).blueair_api_device.filter_usage_percentage =
      Avail.notImplemented ∧
     ((init "d" hass0 devT10).filter_expired 95).1 = some false) ∧
    (((init "d" hass0 devOther).filter_expired 95).1 = none) :=
  ⟨⟨by decide,
    (filter_expired_cases 95 (init "d" hass0 devH35)).1 96 (by decide)⟩,
   ⟨by decide,
    (filter_expired_cases 95 (init "d" hass0 devT10)).2.1
      (Or.inl (by decide)) 10 (by decide)⟩,
   (filter_expired_cases 95 (init "d" hass0 devOther)).2.2
     (Or.inr (by decide)) (Or.inl (by decide))⟩

open BlueairAwsDataUpdateCoordinator in
/-- Claim C7: when the device refresh raises, `_async_update_data` raises
`UpdateFailed` wrapping the original error and leaves the coordinator —
in particular its `name` — unchanged; when it succeeds, the method renames
the coordinator `DOMAIN` + "-" + (refreshed device name) and returns the
empty dictionary. -/
theorem update_data_error_and_success (DOMAIN : String)
    (c : BlueairAwsDataUpdateCoordinator) (e : PyError)
    (refreshed : DeviceAws) :
    _async_update_data DOMAIN c (.error e) =
      (.error ⟨e⟩, c) ∧
    (_async_update_data DOMAIN c (.ok refreshed)).1 = .ok [] ∧
    ((_async_update_data DOMAIN c (.ok refreshed)).2).name =
      DOMAIN ++ "-" ++ refreshed.name ∧
    ((_async_update_data DOMAIN c (.ok refreshed)).2).blueair_api_device =
      refreshed :=
  ⟨rfl, rfl, rfl, rfl⟩

open BlueairAwsDataUpdateCoordinator in
/-- Claim C8: `co2` always returns the `NotImplemented` sentinel and
`manufacturer` the constant "BlueAir"; both are invariant under every
operation (the update step and all seven commands). -/
theorem co2_manufacturer_invariant (DOMAIN : String) (hass : HomeAssistant)
    (dev : DeviceAws) (c : BlueairAwsDataUpdateCoordinator)
    (outcome : Except PyError DeviceAws) (s b : Int) (r l m va vw : Bool) :
    (c.co2).1 = Avail.notImplemented ∧
    ((init DOMAIN hass dev).manufacturer).1 = "BlueAir" ∧
    (((_async_update_data DOMAIN c outcome).2).manufacturer).1 =
      (c.manufacturer).1 ∧
    (((c.set_fan_speed s).2).manufacturer).1 = (c.manufacturer).1 ∧
    (((c.set_running r).2).manufacturer).1 = (c.manufacturer).1 ∧
    (((c.set_brightness b).2).manufacturer).1 = (c.manufacturer).1 ∧
    (((c.set_child_lock l).2).manufacturer).1 = (c.manufacturer).1 ∧
    (((c.set_night_mode m).2).manufacturer).1 = (c.manufacturer).1 ∧
    (((c.set_fan_auto_mode va).2).manufacturer).1 = (c.manufacturer).1 ∧
    (((c.set_wick_dry_mode vw).2).manufacturer).1 = (c.manufacturer).1 := by
  refine ⟨rfl, rfl, ?_, rfl, rfl, rfl, rfl, rfl, rfl, rfl⟩
  cases outcome <;> rfl

end HaBlueair
